import Mathlib

/-!
Shallow embedding of the gesture/polling/onboarding layer of the
plates-mobile front end:

* `src/src/modules/battery.ts` — battery provider (`getBatteryInfo`,
  `setupBatteryInfoInterval`) and, after the file separator, the weather
  provider (`getCurrentWeather`, `setupWeatherInterval`);
* `src/unnamed/part_002` — the time module (`getCurrentTime`,
  `setupTimeInterval`);
* `src/unnamed/part_001` — the onboarding tutorial component
  (`tutorialSteps`, `nextStep`, `prevStep`, `handleAction`,
  `completeTutorial`, `handleClick`, `handleTouchStart`, `handleTouchEnd`);
* `src/src/routes/+page.svelte` — the root view's long-press gesture
  disambiguator (`handleTouchStart`, `handleTouchEnd`, `handleTap` and the
  500 ms `setTimeout` callback).

JavaScript numbers that the code only compares and rounds are modelled as
`Rat`/`Int`; the falsy-or operator `x || d` on numbers and strings is
modelled by `jsOrRat`/`jsOrStr` (falsy values: `0`, the empty string,
`undefined`, modelled as `Option.none`). Fallible bridge calls are modelled
as `Except String _` arguments.
-/

/-! ## Battery module (`src/src/modules/battery.ts`) -/

/-- One entry of the list returned by the `batteries()` bridge call of
`tauri-plugin-system-info-api`: the two fields the code reads. -/
structure Battery where
  state_of_charge : Rat
  state : String
deriving DecidableEq

/-- `BatteryInfo` interface of `battery.ts`: UI-facing battery value. -/
structure BatteryInfo where
  level : Rat
  state : String
deriving DecidableEq

/-- JavaScript `x || d` on a possibly-undefined number: `undefined` and `0`
are falsy and yield the default. -/
def jsOrRat (x : Option Rat) (d : Rat) : Rat :=
  match x with
  | none => d
  | some v => if v = 0 then d else v

/-- JavaScript `x || d` on a possibly-undefined string: `undefined` and the
empty string are falsy and yield the default. -/
def jsOrStr (x : Option String) (d : String) : String :=
  match x with
  | none => d
  | some v => if v = "" then d else v

/-- Embeds `getBatteryInfo` of `battery.ts`. The `batteries()` bridge call
is a parameter: `.error` is a thrown bridge error (caught by the
`try`/`catch`, which returns the default `\x7b level: 100, state: 'unknown' \x7d`);
`.ok` is the returned battery list, read through optional chaining
(`batteryInfo[0]?.field`) and falsy-or defaults. -/
def getBatteryInfo (batteriesCall : Except String (List Battery)) : BatteryInfo :=
  match batteriesCall with
  | .error _ => { level := 100, state := "unknown" }
  | .ok batteryInfo =>
    let firstBattery := batteryInfo.head?
    { level := jsOrRat (firstBattery.map (fun b => b.state_of_charge)) 100
      state := jsOrStr (firstBattery.map (fun b => b.state)) "unknown" }

/-! ## Weather module (second file inside `src/src/modules/battery.ts`) -/

/-- `WeatherData` interface of the weather module. -/
structure WeatherData where
  temperature : String
  icon : String
deriving DecidableEq

/-- `defaultWeather` constant of the weather module. -/
def defaultWeather : WeatherData :=
  { temperature := "--°F", icon := "🌤️" }

/-- Coordinates of a `getCurrentPosition()` result (the two fields read). -/
structure Coords where
  latitude : Rat
  longitude : Rat
deriving DecidableEq

/-- Embeds `getCurrentWeather` of the weather module. Both fallible steps
are parameters: `position` is the `getCurrentPosition()` result and
`get_weather` the bridge command invoked with `Math.round`ed coordinates
(JavaScript `Math.round x = ⌊x + 1/2⌋`, which is Mathlib's `round` on `Rat`).
Any thrown error is caught and replaced by `defaultWeather`. -/
def getCurrentWeather (position : Except String Coords)
    (get_weather : Int → Int → Except String WeatherData) : WeatherData :=
  match position with
  | .error _ => defaultWeather
  | .ok pos =>
    match get_weather (round pos.latitude) (round pos.longitude) with
    | .error _ => defaultWeather
    | .ok weatherData => weatherData

/-! ## Interval scheduler (`setupTimeInterval` in `src/unnamed/part_002`,
`setupBatteryInfoInterval` in `battery.ts`, `setupWeatherInterval` in the
weather module)

Each `setupXInterval(callback, interval)` call is modelled by the state of
its timer and of the asynchronous fetches it has started:
`intervalActive` is whether the `setInterval` handle is still registered,
`pendingFetches` counts fetch promises whose `callback` continuation has
not yet run, and `deliveries` counts completed callback invocations. The
returned `() => clearInterval(handle)` closure is `cancelInterval`; an
interval tick is `tick`; the event loop running one pending fetch's
continuation is `resolveFetch`. -/

/-- Runtime state of one scheduler subscription. -/
structure SchedState where
  intervalActive : Bool
  pendingFetches : Nat
  deliveries : Nat
deriving DecidableEq

/-- The event loop completes one in-flight fetch: its `.then(callback)` /
`callback(await ...)` continuation delivers one callback invocation. -/
def resolveFetch (s : SchedState) : SchedState :=
  if 0 < s.pendingFetches then
    { s with pendingFetches := s.pendingFetches - 1, deliveries := s.deliveries + 1 }
  else s

/-- `() => clearInterval(handle)`: deregisters the interval timer.
`clearInterval` on an already-cleared handle is a no-op. -/
def cancelInterval (s : SchedState) : SchedState :=
  { s with intervalActive := false }

/-- State right after `setupTimeInterval(callback, interval)` returns: the
body only calls `setInterval` — no initial fetch, no initial delivery. -/
def setupTimeInterval.init : SchedState :=
  { intervalActive := true, pendingFetches := 0, deliveries := 0 }

/-- One `setInterval` tick of `setupTimeInterval`: the callback is invoked
synchronously with `getCurrentTime()`/`getCurrentDate()` (no await). -/
def setupTimeInterval.tick (s : SchedState) : SchedState :=
  if s.intervalActive then { s with deliveries := s.deliveries + 1 } else s

/-- State right after `setupBatteryInfoInterval(callback, interval)`
returns: `getBatteryInfo().then(callback)` has started one initial fetch
(still pending), and the interval is registered. -/
def setupBatteryInfoInterval.init : SchedState :=
  { intervalActive := true, pendingFetches := 1, deliveries := 0 }

/-- One `setInterval` tick of `setupBatteryInfoInterval`: the async tick
body starts `getBatteryInfo()`; the callback runs only when that fetch
resolves. -/
def setupBatteryInfoInterval.tick (s : SchedState) : SchedState :=
  if s.intervalActive then { s with pendingFetches := s.pendingFetches + 1 } else s

/-- State right after `setupWeatherInterval(callback, interval)` returns:
`getCurrentWeather().then(callback)` has started one initial fetch. -/
def setupWeatherInterval.init : SchedState :=
  { intervalActive := true, pendingFetches := 1, deliveries := 0 }

/-- One `setInterval` tick of `setupWeatherInterval` (async body, like the
battery tick). -/
def setupWeatherInterval.tick (s : SchedState) : SchedState :=
  if s.intervalActive then { s with pendingFetches := s.pendingFetches + 1 } else s

/-! ## Onboarding tutorial component (`src/unnamed/part_001`) -/

namespace Tutorial

/-- One entry of the `tutorialSteps` array. -/
structure Step where
  title : String
  subtitle : String
  extraText : Option String
  action : Option String
deriving DecidableEq

/-- The `tutorialSteps` array (N = 4 steps). -/
def tutorialSteps : List Step :=
  [ { title := "Heyo! Looks like you\x27re new around here."
      subtitle := "Ready to get started?"
      extraText := none
      action := none }
  , { title := "You\x27re going to want to set this as your launcher."
      subtitle := "Click anywhere, we\x27ll open the menu for you."
      extraText := none
      action := some "setLauncher" }
  , { title := "Login with Google, we\x27ll save your data."
      subtitle := "Just in case you get a link a new device... or you get a new phone... or you regretfully deleted the app (why would you ever do that?)"
      extraText := none
      action := none }
  , { title := "Also we\x27ll need access to other stuff on your phone, just accept the permissions."
      subtitle := "Sounds scary, I know, but trust us, we\x27ll make everything easier for you, and our code is open source"
      extraText := some "What that means is that anybody can see our code and we can\x27t really do any bad things"
      action := some "requestPermissions" } ]

/-- Component state: `currentStep` is the `let currentStep = 0` variable;
`completions` counts `completeTutorial` runs (each performs the
`invoke("complete_tutorial")` bridge call and, on its success, dispatches
the `tutorialComplete` event to the parent); `invokedEffects` records, in
order, the side effects performed by `handleAction` (the
`invoke("set_as_launcher")` bridge call, or the `console.log` stub for
`requestPermissions`); `touchStartY` is the swipe-tracking variable. -/
structure State where
  currentStep : Nat
  touchStartY : Int
  completions : Nat
  invokedEffects : List String
deriving DecidableEq

/-- Component state at mount. -/
def init : State :=
  { currentStep := 0, touchStartY := 0, completions := 0, invokedEffects := [] }

/-- Embeds `completeTutorial`: performs the `complete_tutorial` bridge call
and dispatches `tutorialComplete` (counted together as one completion; the
`catch` branch only logs, so the call itself is always attempted). -/
def completeTutorial (s : State) : State :=
  { s with completions := s.completions + 1 }

/-- Embeds `nextStep`: advance while below the last index, otherwise run
`completeTutorial`. -/
def nextStep (s : State) : State :=
  if s.currentStep < tutorialSteps.length - 1 then
    { s with currentStep := s.currentStep + 1 }
  else
    completeTutorial s

/-- Embeds `prevStep`: retreat while above 0. -/
def prevStep (s : State) : State :=
  if s.currentStep > 0 then { s with currentStep := s.currentStep - 1 } else s

/-- The `tutorialSteps[currentStep].action` read. -/
def currentAction (s : State) : Option String :=
  (tutorialSteps.get? s.currentStep).bind (fun st => st.action)

/-- Embeds `handleAction`: dispatch on the current step\x27s action. The
`action` read happens before any `await`, hence before `nextStep` runs in
`handleClick`. -/
def handleAction (s : State) : State :=
  match currentAction s with
  | some a =>
    if a = "setLauncher" then
      { s with invokedEffects := s.invokedEffects ++ ["set_as_launcher"] }
    else if a = "requestPermissions" then
      { s with invokedEffects := s.invokedEffects ++ ["log:Requesting permissions"] }
    else s
  | none => s

/-- JavaScript truthiness of `tutorialSteps[currentStep].action`
(`null` and the empty string are falsy). -/
def jsTruthyAction (a : Option String) : Bool :=
  match a with
  | none => false
  | some v => v != ""

/-- Embeds `handleClick`: if the current step declares a (truthy) action,
run `handleAction`, then always `nextStep`. -/
def handleClick (s : State) : State :=
  nextStep (if jsTruthyAction (currentAction s) then handleAction s else s)

/-- Embeds the tutorial\x27s `handleTouchStart`: records the touch\x27s
`clientY`. -/
def handleTouchStart (clientY : Int) (s : State) : State :=
  { s with touchStartY := clientY }

/-- Embeds the tutorial\x27s `handleTouchEnd`: `diff = touchStartY - touchEndY`;
swipe up (`diff > 50`) runs `nextStep`, swipe down (`diff < -50`) runs
`prevStep`, anything else is ignored. -/
def handleTouchEnd (touchEndY : Int) (s : State) : State :=
  let diff := s.touchStartY - touchEndY
  if diff > 50 then nextStep s
  else if diff < -50 then prevStep s
  else s

/-- One physical touch-start as the component wires it: the handlers are
registered twice — on the container (`on:touchstart` in the markup) and on
`document` (`document.addEventListener` in `onMount`) — and the event
bubbles from the full-screen container to `document` with no
`stopPropagation`, so `handleTouchStart` runs twice with the same
`clientY`. -/
def physicalTouchStart (clientY : Int) (s : State) : State :=
  handleTouchStart clientY (handleTouchStart clientY s)

/-- One physical touch-end: by the same duplicate registration
(`on:touchend` on the container plus the `document` listener),
`handleTouchEnd` runs twice with the same `changedTouches[0].clientY`, so a
swipe past the threshold performs its transition twice. -/
def physicalTouchEnd (touchEndY : Int) (s : State) : State :=
  handleTouchEnd touchEndY (handleTouchEnd touchEndY s)

end Tutorial

/-! ## Long-press gesture disambiguator (`src/src/routes/+page.svelte`)

The root view binds `handleTouchStart` to `touchstart`/`mousedown`,
`handleTouchEnd` to `touchend`/`touchcancel`/`mouseup`/`mouseleave`, and
`handleTap` to `click` on the same `<main>` element, and arms a 500 ms
`setTimeout` per press. DOM timer handles are positive integers, so the
truthiness test `if (longPressTimer)` is equivalent to a null test here;
`setTimeout`/`clearTimeout` are modelled by an explicit list of armed,
not-yet-fired timer ids (`activeTimers`), with fresh ids drawn from
`nextTimerId` starting at 1. Calls into the `SpeechToText` child
(`handleLongPressStart`, `handleLongPressEnd`, `showTextInputField`) are
recorded in `outputs` in invocation order. -/

namespace Home

/-- Callbacks the root view fires on the `SpeechToText` child. -/
inductive Callback where
  | longPressStart
  | longPressEnd
  | showTextInput
deriving DecidableEq

/-- Root-view gesture state: the `isFirstRun`, `longPressTimer` and
`isLongPressing` variables, plus the set of armed timers and the emitted
callbacks. -/
structure State where
  isFirstRun : Bool
  nextTimerId : Nat
  activeTimers : List Nat
  longPressTimer : Option Nat
  isLongPressing : Bool
  outputs : List Callback
deriving DecidableEq

/-- Root-view state at mount (before any gesture; `isFirstRun` false, as on
the home screen where the gesture handlers are live). -/
def init : State :=
  { isFirstRun := false, nextTimerId := 1, activeTimers := [], longPressTimer := none
    isLongPressing := false, outputs := [] }

/-- Embeds `handleTouchStart`: unless this is the first run, arm a fresh
500 ms `setTimeout` and store its handle in `longPressTimer`
(unconditionally — any previously stored handle is overwritten and its
timer stays armed). -/
def handleTouchStart (s : State) : State :=
  if s.isFirstRun then s
  else
    { s with longPressTimer := some s.nextTimerId
             activeTimers := s.activeTimers ++ [s.nextTimerId]
             nextTimerId := s.nextTimerId + 1 }

/-- Embeds the body of the 500 ms `setTimeout`: when an armed timer `id`
fires (one-shot: it leaves `activeTimers`), set `isLongPressing` and call
`handleLongPressStart` on the child. `longPressTimer` is not touched. -/
def timerFire (id : Nat) (s : State) : State :=
  if id ∈ s.activeTimers then
    { s with activeTimers := s.activeTimers.erase id
             isLongPressing := true
             outputs := s.outputs ++ [Callback.longPressStart] }
  else s

/-- Embeds `handleTouchEnd`: clear the stored timer if any (`clearTimeout`
of an already-fired handle is a no-op), then, if `isLongPressing`, reset it
and call `handleLongPressEnd`. -/
def handleTouchEnd (s : State) : State :=
  if s.isFirstRun then s
  else
    let s1 :=
      match s.longPressTimer with
      | some id => { s with activeTimers := s.activeTimers.erase id, longPressTimer := none }
      | none => s
    if s1.isLongPressing then
      { s1 with isLongPressing := false, outputs := s1.outputs ++ [Callback.longPressEnd] }
    else s1

/-- Embeds `handleTap` (the `click` handler): return early if
`isLongPressing` or first run; otherwise clear the stored timer if any and
call `showTextInputField` on the child. -/
def handleTap (s : State) : State :=
  if s.isLongPressing || s.isFirstRun then s
  else
    let s1 :=
      match s.longPressTimer with
      | some id => { s with activeTimers := s.activeTimers.erase id, longPressTimer := none }
      | none => s
    { s1 with outputs := s1.outputs ++ [Callback.showTextInput] }

/-- Raw input events of one run: press-down (`touchstart`/`mousedown`),
press-up or press-cancel (`touchend`/`touchcancel`/`mouseup`/`mouseleave`),
the `click` the browser dispatches after a release on the element, and an
armed timer firing. -/
inductive Event where
  | down
  | up
  | click
  | fire (id : Nat)
deriving DecidableEq

/-- Dispatch one event to its handler. -/
def step (s : State) : Event → State
  | Event.down => handleTouchStart s
  | Event.up => handleTouchEnd s
  | Event.click => handleTap s
  | Event.fire id => timerFire id s

/-- Process a sequence of events. -/
def run (s : State) (es : List Event) : State :=
  es.foldl step s

end Home

/-! ## Theorems about the claims -/

/-- C9: every failed weather fetch (position error or bridge error) resolves
to the fixed placeholder `defaultWeather`, and every failed battery fetch
resolves to level 100 / state unknown; both functions are total, so no
error propagates to the view. -/
theorem battery_weather_fetch_failure_yields_fallback :
    (∀ e : String, getBatteryInfo (Except.error e) = { level := 100, state := "unknown" })
    ∧ (∀ (e : String) (g : Int → Int → Except String WeatherData),
        getCurrentWeather (Except.error e) g = defaultWeather)
    ∧ (∀ (e : String) (pos : Coords),
        getCurrentWeather (Except.ok pos) (fun _ _ => Except.error e) = defaultWeather) :=
  ⟨fun _ => rfl, fun _ _ => rfl, fun _ _ => rfl⟩

/-- C10: when the battery bridge succeeds, the falsy-or defaults still fire
fieldwise: a first battery with `state_of_charge = 0` reports level 100 and
an empty-string `state` reports unknown, while truthy fields pass through
unchanged. -/
theorem battery_falsy_fields_fallback_on_success :
    getBatteryInfo (Except.ok [{ state_of_charge := 0, state := "charging" }]) =
      { level := 100, state := "charging" }
    ∧ getBatteryInfo (Except.ok [{ state_of_charge := 42, state := "" }]) =
      { level := 42, state := "unknown" }
    ∧ getBatteryInfo (Except.ok [{ state_of_charge := 0, state := "" }]) =
      { level := 100, state := "unknown" }
    ∧ getBatteryInfo (Except.ok [{ state_of_charge := 42, state := "charging" }]) =
      { level := 42, state := "charging" } := by
  refine ⟨?_, ?_, ?_, ?_⟩ <;> decide

/-- C2 counterexample: the time subscription performs no immediate callback
delivery — right after `setupTimeInterval` returns there is no pending
fetch and no delivery, and running the event loop delivers nothing before
the first interval tick. -/
theorem time_subscription_has_no_immediate_delivery :
    setupTimeInterval.init.pendingFetches = 0
    ∧ setupTimeInterval.init.deliveries = 0
    ∧ (resolveFetch setupTimeInterval.init).deliveries = 0 := by
  decide

/-- C2 amended: the battery and weather subscriptions start one immediate
fetch whose resolution is the first delivery; the time subscription makes
its first delivery only at the first interval tick; while the interval is
active each tick delivers (time) or schedules one fetch (battery/weather),
and after `cancel()` ticks have no effect. -/
theorem provider_subscription_initial_and_periodic_delivery :
    (setupBatteryInfoInterval.init.pendingFetches = 1
      ∧ (resolveFetch setupBatteryInfoInterval.init).deliveries = 1)
    ∧ (setupWeatherInterval.init.pendingFetches = 1
      ∧ (resolveFetch setupWeatherInterval.init).deliveries = 1)
    ∧ (setupTimeInterval.init.deliveries = 0
      ∧ (setupTimeInterval.tick setupTimeInterval.init).deliveries = 1)
    ∧ (∀ s : SchedState, s.intervalActive = true →
        (setupTimeInterval.tick s).deliveries = s.deliveries + 1
        ∧ (setupBatteryInfoInterval.tick s).pendingFetches = s.pendingFetches + 1
        ∧ (setupWeatherInterval.tick s).pendingFetches = s.pendingFetches + 1)
    ∧ (∀ s : SchedState,
        setupTimeInterval.tick (cancelInterval s) = cancelInterval s
        ∧ setupBatteryInfoInterval.tick (cancelInterval s) = cancelInterval s
        ∧ setupWeatherInterval.tick (cancelInterval s) = cancelInterval s) := by
  refine ⟨⟨rfl, rfl⟩, ⟨rfl, rfl⟩, ⟨rfl, rfl⟩, fun s h => ?_, fun s => ?_⟩
  · simp [setupTimeInterval.tick, setupBatteryInfoInterval.tick, setupWeatherInterval.tick, h]
  · simp [setupTimeInterval.tick, setupBatteryInfoInterval.tick, setupWeatherInterval.tick,
      cancelInterval]

/-- Witness for the C2 amended theorem at a concrete active state. -/
theorem provider_subscription_initial_and_periodic_delivery_witness :
    (setupTimeInterval.tick { intervalActive := true, pendingFetches := 0, deliveries := 0 }).deliveries
      = 0 + 1 :=
  (provider_subscription_initial_and_periodic_delivery.2.2.2.1
    { intervalActive := true, pendingFetches := 0, deliveries := 0 } rfl).1

/-- C6 counterexample: cancelling the battery subscription before its
initial fetch resolves does not stop that delivery — the callback still
runs once after `cancel()`. -/
theorem battery_initial_fetch_delivers_after_cancel :
    (cancelInterval setupBatteryInfoInterval.init).deliveries = 0
    ∧ (resolveFetch (cancelInterval setupBatteryInfoInterval.init)).deliveries = 1 := by
  decide

/-- C6 amended: `cancel()` is idempotent and stops all further interval
ticks, but a fetch already in flight (such as the initial one) still
delivers once when it resolves. -/
theorem cancel_idempotent_and_stops_ticks :
    (∀ s : SchedState, cancelInterval (cancelInterval s) = cancelInterval s)
    ∧ (∀ s : SchedState,
        setupTimeInterval.tick (cancelInterval s) = cancelInterval s
        ∧ setupBatteryInfoInterval.tick (cancelInterval s) = cancelInterval s
        ∧ setupWeatherInterval.tick (cancelInterval s) = cancelInterval s)
    ∧ (resolveFetch (cancelInterval setupWeatherInterval.init)).deliveries = 1 := by
  refine ⟨fun s => rfl, fun s => ?_, by decide⟩
  simp [setupTimeInterval.tick, setupBatteryInfoInterval.tick, setupWeatherInterval.tick,
    cancelInterval]

/-- C1 counterexample: with the N = 4 `tutorialSteps`, calling `nextStep`
N-1 = 3 times from step 0 reaches the terminal step, but the completion
side effect (the `complete_tutorial` bridge call plus the
`tutorialComplete` event) has fired zero times, not once. -/
theorem tutorial_three_advances_reach_terminal_without_completion :
    (Tutorial.nextStep^[Tutorial.tutorialSteps.length - 1] Tutorial.init).currentStep
      = Tutorial.tutorialSteps.length - 1
    ∧ (Tutorial.nextStep^[Tutorial.tutorialSteps.length - 1] Tutorial.init).completions = 0 := by
  decide

/-- C1 amended: N-1 = 3 `nextStep` calls from step 0 reach the terminal
step with the completion side effect not yet triggered; the Nth = 4th call
triggers it exactly once and leaves the step index at N-1. -/
theorem tutorial_completion_fires_once_on_fourth_advance :
    (Tutorial.nextStep^[3] Tutorial.init).currentStep = 3
    ∧ (Tutorial.nextStep^[3] Tutorial.init).completions = 0
    ∧ (Tutorial.nextStep^[4] Tutorial.init).currentStep = 3
    ∧ (Tutorial.nextStep^[4] Tutorial.init).completions = 1 := by
  decide

/-- C7 counterexample: because the tutorial registers the touch handlers
both on the container and on `document`, one physical 51-unit upward swipe
from step 0 runs `handleTouchEnd` twice and lands on step 2, not step 1;
one physical 51-unit downward swipe from step 3 lands on step 1, not
step 2. -/
theorem tutorial_physical_swipe_moves_two_steps :
    (Tutorial.physicalTouchEnd 49 (Tutorial.physicalTouchStart 100 Tutorial.init)).currentStep
      = 2
    ∧ (Tutorial.physicalTouchEnd 151 (Tutorial.physicalTouchStart 100
        { Tutorial.init with currentStep := 3 })).currentStep = 1 := by
  decide

/-- C7 amended: each single swipe-handler invocation moves one step past
the 50-unit threshold, but the duplicate container-plus-`document`
registration runs the handler twice per physical swipe: 51 upward moves
two steps (from the penultimate step it reaches the terminal step and the
second invocation fires the completion side effect once); 51 downward
retreats two steps (truncated `Nat` subtraction clamps at step 0); any
swipe with displacement of absolute value at most 50 — including 49 in
either direction and purely horizontal motion — leaves the state of the
tutorial unchanged even under both invocations. -/
theorem tutorial_physical_swipe_threshold_transitions
    (s : Tutorial.State) (startY endY : Int) :
    (startY - endY = 51 → s.currentStep + 1 < Tutorial.tutorialSteps.length - 1 →
      (Tutorial.physicalTouchEnd endY (Tutorial.physicalTouchStart startY s)).currentStep
          = s.currentStep + 2
        ∧ (Tutorial.physicalTouchEnd endY (Tutorial.physicalTouchStart startY s)).completions
          = s.completions
        ∧ (Tutorial.physicalTouchEnd endY (Tutorial.physicalTouchStart startY s)).invokedEffects
          = s.invokedEffects)
    ∧ (startY - endY = 51 → s.currentStep = Tutorial.tutorialSteps.length - 2 →
      (Tutorial.physicalTouchEnd endY (Tutorial.physicalTouchStart startY s)).currentStep
          = Tutorial.tutorialSteps.length - 1
        ∧ (Tutorial.physicalTouchEnd endY (Tutorial.physicalTouchStart startY s)).completions
          = s.completions + 1)
    ∧ (startY - endY = -51 →
      (Tutorial.physicalTouchEnd endY (Tutorial.physicalTouchStart startY s)).currentStep
          = s.currentStep - 2
        ∧ (Tutorial.physicalTouchEnd endY (Tutorial.physicalTouchStart startY s)).completions
          = s.completions
        ∧ (Tutorial.physicalTouchEnd endY (Tutorial.physicalTouchStart startY s)).invokedEffects
          = s.invokedEffects)
    ∧ (-50 ≤ startY - endY → startY - endY ≤ 50 →
      Tutorial.physicalTouchEnd endY (Tutorial.physicalTouchStart startY s)
        = Tutorial.physicalTouchStart startY s) := by
  refine ⟨fun h hlt => ?_, fun h hpen => ?_, fun h => ?_, fun hlo hhi => ?_⟩
  · have h4 : s.currentStep + 1 < 3 := by
      simpa [Tutorial.tutorialSteps] using hlt
    have h3 : s.currentStep < 3 := by omega
    simp [Tutorial.physicalTouchEnd, Tutorial.physicalTouchStart, Tutorial.handleTouchEnd,
      Tutorial.handleTouchStart, Tutorial.nextStep, Tutorial.tutorialSteps, h, h3, h4]
  · have hc : s.currentStep = 2 := by
      simpa [Tutorial.tutorialSteps] using hpen
    simp [Tutorial.physicalTouchEnd, Tutorial.physicalTouchStart, Tutorial.handleTouchEnd,
      Tutorial.handleTouchStart, Tutorial.nextStep, Tutorial.completeTutorial,
      Tutorial.tutorialSteps, h, hc]
  · rcases hc : s.currentStep with _ | c
    · simp [Tutorial.physicalTouchEnd, Tutorial.physicalTouchStart, Tutorial.handleTouchEnd,
        Tutorial.handleTouchStart, Tutorial.prevStep, h, hc]
    · rcases c with _ | c
      · simp [Tutorial.physicalTouchEnd, Tutorial.physicalTouchStart, Tutorial.handleTouchEnd,
          Tutorial.handleTouchStart, Tutorial.prevStep, h, hc]
      · simp [Tutorial.physicalTouchEnd, Tutorial.physicalTouchStart, Tutorial.handleTouchEnd,
          Tutorial.handleTouchStart, Tutorial.prevStep, h, hc]
  · have h1 : ¬ (startY - endY > 50) := by omega
    have h2 : ¬ (startY - endY < -50) := by omega
    simp [Tutorial.physicalTouchEnd, Tutorial.physicalTouchStart, Tutorial.handleTouchEnd,
      Tutorial.handleTouchStart, h1, h2]

/-- Witness for the C7 amended theorem at concrete swipes: 51 upward from
step 0 lands on step 2, 51 upward from the penultimate step 2 completes
once, 51 downward from step 0 stays clamped at 0, and a 49 upward swipe
leaves the state as it was after the (doubled) `touchstart`. -/
theorem tutorial_physical_swipe_threshold_transitions_witness :
    (Tutorial.physicalTouchEnd 49 (Tutorial.physicalTouchStart 100 Tutorial.init)).currentStep
        = Tutorial.init.currentStep + 2
    ∧ (Tutorial.physicalTouchEnd 49 (Tutorial.physicalTouchStart 100
          { Tutorial.init with currentStep := 2 })).completions
        = ({ Tutorial.init with currentStep := 2 } : Tutorial.State).completions + 1
    ∧ (Tutorial.physicalTouchEnd 151 (Tutorial.physicalTouchStart 100 Tutorial.init)).currentStep
        = Tutorial.init.currentStep - 2
    ∧ Tutorial.physicalTouchEnd 51 (Tutorial.physicalTouchStart 100 Tutorial.init)
        = Tutorial.physicalTouchStart 100 Tutorial.init :=
  ⟨((tutorial_physical_swipe_threshold_transitions Tutorial.init 100 49).1
      (by decide) (by decide)).1,
   ((tutorial_physical_swipe_threshold_transitions { Tutorial.init with currentStep := 2 }
      100 49).2.1 (by decide) (by decide)).2,
   ((tutorial_physical_swipe_threshold_transitions Tutorial.init 100 151).2.2.1 (by decide)).1,
   (tutorial_physical_swipe_threshold_transitions Tutorial.init 100 51).2.2.2
      (by decide) (by decide)⟩

/-- C8 counterexample: from the initial state, one click advances to step
1, whose declared action is `setLauncher`; an upward swipe of 51 from there
advances to step 2 but invokes no action at all (`invokedEffects` stays
empty). -/
theorem tutorial_swipe_advance_skips_action :
    (Tutorial.handleClick Tutorial.init).currentStep = 1
    ∧ Tutorial.currentAction (Tutorial.handleClick Tutorial.init) = some "setLauncher"
    ∧ (Tutorial.handleTouchEnd 0
        (Tutorial.handleTouchStart 51 (Tutorial.handleClick Tutorial.init))).currentStep = 2
    ∧ (Tutorial.handleTouchEnd 0
        (Tutorial.handleTouchStart 51 (Tutorial.handleClick Tutorial.init))).invokedEffects
      = [] := by
  decide

/-- C8 amended: only the click path invokes the current step\x27s declared
action before advancing; the swipe path (`handleTouchStart`/
`handleTouchEnd`) never touches the invoked-effects log. -/
theorem tutorial_only_click_advance_invokes_action (s : Tutorial.State) :
    (∀ endY : Int, (Tutorial.handleTouchEnd endY s).invokedEffects = s.invokedEffects)
    ∧ (∀ startY : Int, (Tutorial.handleTouchStart startY s).invokedEffects = s.invokedEffects)
    ∧ (Tutorial.currentAction s = some "setLauncher" →
        (Tutorial.handleClick s).invokedEffects = s.invokedEffects ++ ["set_as_launcher"])
    ∧ (Tutorial.currentAction s = some "requestPermissions" →
        (Tutorial.handleClick s).invokedEffects
          = s.invokedEffects ++ ["log:Requesting permissions"])
    ∧ (Tutorial.currentAction s = none →
        (Tutorial.handleClick s).invokedEffects = s.invokedEffects) := by
  refine ⟨fun endY => ?_, fun startY => rfl, fun h => ?_, fun h => ?_, fun h => ?_⟩
  · simp only [Tutorial.handleTouchEnd, Tutorial.nextStep, Tutorial.prevStep,
      Tutorial.completeTutorial]
    split_ifs <;> rfl
  · unfold Tutorial.handleClick Tutorial.nextStep Tutorial.completeTutorial
    simp [Tutorial.jsTruthyAction, Tutorial.handleAction, h]
    split <;> rfl
  · unfold Tutorial.handleClick Tutorial.nextStep Tutorial.completeTutorial
    simp [Tutorial.jsTruthyAction, Tutorial.handleAction, h]
    split <;> rfl
  · unfold Tutorial.handleClick Tutorial.nextStep Tutorial.completeTutorial
    simp [Tutorial.jsTruthyAction, Tutorial.handleAction, h]
    split <;> rfl

/-- Witness for the C8 amended theorem: a click at step 1 invokes the
launcher action, a click at step 3 runs the permissions log stub, and a
click at step 0 (no action) invokes nothing. -/
theorem tutorial_only_click_advance_invokes_action_witness :
    (Tutorial.handleClick { Tutorial.init with currentStep := 1 }).invokedEffects
        = Tutorial.init.invokedEffects ++ ["set_as_launcher"]
    ∧ (Tutorial.handleClick { Tutorial.init with currentStep := 3 }).invokedEffects
        = Tutorial.init.invokedEffects ++ ["log:Requesting permissions"]
    ∧ (Tutorial.handleClick Tutorial.init).invokedEffects = Tutorial.init.invokedEffects :=
  ⟨(tutorial_only_click_advance_invokes_action { Tutorial.init with currentStep := 1 }).2.2.1
      (by decide),
   (tutorial_only_click_advance_invokes_action { Tutorial.init with currentStep := 3 }).2.2.2.1
      (by decide),
   (tutorial_only_click_advance_invokes_action Tutorial.init).2.2.2.2 (by decide)⟩

/-- C3 counterexample: a second press-down while the first press is still
pending arms a second timer (two timers active at once, the stored handle
overwritten to the new one); and after the timer fires — phase
LongPressing — the stored handle is still non-null. Both halves of the
claimed invariant fail. -/
theorem gesture_reentrant_down_starts_second_timer :
    (Home.run Home.init [Home.Event.down, Home.Event.down]).activeTimers = [1, 2]
    ∧ (Home.run Home.init [Home.Event.down, Home.Event.down]).longPressTimer = some 2
    ∧ (Home.run Home.init [Home.Event.down, Home.Event.fire 1]).isLongPressing = true
    ∧ (Home.run Home.init [Home.Event.down, Home.Event.fire 1]).longPressTimer = some 1 := by
  decide

/-- C3 amended: `handleTouchStart` is not a no-op in any phase — outside
the first run it always arms one fresh timer, appends it to the armed set
(leaving any earlier timer active), and overwrites the stored handle with
the new id, without touching `isLongPressing`. -/
theorem gesture_down_always_arms_new_timer (s : Home.State)
    (h : s.isFirstRun = false) :
    (Home.handleTouchStart s).activeTimers = s.activeTimers ++ [s.nextTimerId]
    ∧ (Home.handleTouchStart s).longPressTimer = some s.nextTimerId
    ∧ (Home.handleTouchStart s).isLongPressing = s.isLongPressing := by
  simp [Home.handleTouchStart, h]

/-- Witness for the C3 amended theorem at the mount state. -/
theorem gesture_down_always_arms_new_timer_witness :
    (Home.handleTouchStart Home.init).activeTimers
        = Home.init.activeTimers ++ [Home.init.nextTimerId]
    ∧ (Home.handleTouchStart Home.init).longPressTimer = some Home.init.nextTimerId
    ∧ (Home.handleTouchStart Home.init).isLongPressing = Home.init.isLongPressing :=
  gesture_down_always_arms_new_timer Home.init rfl

/-- C4 (code bug evaluated on the failing input): for a press held past the
500 ms timer — press-down, timer fires, press-up, then the click the
browser dispatches after the release — the view fires
`handleLongPressStart`, `handleLongPressEnd`, and then also the tap
callback `showTextInputField`, because `handleTouchEnd` resets
`isLongPressing` before the click reaches `handleTap`, so the guard in
`handleTap` never blocks. -/
theorem gesture_long_press_also_fires_tap :
    (Home.run Home.init
        [Home.Event.down, Home.Event.fire 1, Home.Event.up, Home.Event.click]).outputs
      = [Home.Callback.longPressStart, Home.Callback.longPressEnd,
         Home.Callback.showTextInput] := by
  decide

/-- C5: from any idle state (not first run, not long-pressing, no stored
handle, no armed timer), a press-down followed by a press-up before the
timer fires, and the ensuing click, emits exactly the tap callback: the
armed timer is cancelled, the handle cleared, no long-press callback
fires. -/
theorem gesture_short_press_fires_exactly_tap (s : Home.State)
    (hfr : s.isFirstRun = false) (hlp : s.isLongPressing = false)
    (ha : s.activeTimers = []) :
    (Home.run s [Home.Event.down, Home.Event.up, Home.Event.click]).outputs
        = s.outputs ++ [Home.Callback.showTextInput]
    ∧ (Home.run s [Home.Event.down, Home.Event.up, Home.Event.click]).activeTimers = []
    ∧ (Home.run s [Home.Event.down, Home.Event.up, Home.Event.click]).longPressTimer = none
    ∧ (Home.run s [Home.Event.down, Home.Event.up, Home.Event.click]).isLongPressing = false := by
  simp [Home.run, Home.step, Home.handleTouchStart, Home.handleTouchEnd, Home.handleTap,
    hfr, hlp, ha]

/-- Witness for C5 at the mount state. -/
theorem gesture_short_press_fires_exactly_tap_witness :
    (Home.run Home.init [Home.Event.down, Home.Event.up, Home.Event.click]).outputs
        = Home.init.outputs ++ [Home.Callback.showTextInput]
    ∧ (Home.run Home.init [Home.Event.down, Home.Event.up, Home.Event.click]).activeTimers = []
    ∧ (Home.run Home.init [Home.Event.down, Home.Event.up, Home.Event.click]).longPressTimer
        = none
    ∧ (Home.run Home.init [Home.Event.down, Home.Event.up, Home.Event.click]).isLongPressing
        = false :=
  gesture_short_press_fires_exactly_tap Home.init rfl rfl rfl
